import Mathlib

/-!
Shallow embedding of `src/packages/components/popper/src/popperContent.ts`
(the PopperContent component): prop types, the configuration translator that
builds the positioning-middleware list, the computed values derived from the
engine's middleware data, the outer wrapper's inline style, and the small
lifecycle state machines behind the `onPlaced` watcher and the z-index copy.
DOM elements are abstracted by identifiers (`Elem := Nat`); the external
positioning engine's outputs appear as explicit data (`MiddlewareData`,
`FloatingStyles`).
-/

namespace Popper

/-- DOM elements, abstracted by identifiers. -/
abbrev Elem := Nat

/-- The `side` prop values (`SIDE_OPTIONS` in utils). -/
inductive Side where
  | top
  | right
  | bottom
  | left
deriving DecidableEq, Repr

/-- The `align` prop values (`ALIGN_OPTIONS` in utils); `end_` models `'end'`. -/
inductive Align where
  | start
  | center
  | end_
deriving DecidableEq, Repr

/-- The `sticky` prop: `'partial' | 'always'`; `part` models `'partial'`. -/
inductive Sticky where
  | part
  | always
deriving DecidableEq, Repr

/-- The `updatePositionStrategy` prop: `'optimized' | 'always'`. -/
inductive UpdateStrategy where
  | optimized
  | always
deriving DecidableEq, Repr

/-- The engine's `Padding` type as accepted by the `collisionPadding` prop:
a bare number, or a partial record of edges (absent fields are absent keys). -/
inductive PaddingProp where
  | num (n : Int)
  | record (top right bottom left : Option Int)
deriving DecidableEq, Repr

/-- A padding value as it sits inside the overflow-detection configuration:
either still a bare number (the `typeof === 'number'` branch keeps it as is),
or the four-edge record built by the object spread at popperContent.ts:157. -/
inductive PaddingValue where
  | num (n : Int)
  | quad (top right bottom left : Int)
deriving DecidableEq, Repr

/-- Discriminator: is the padding value a four-edge record? -/
def PaddingValue.isQuad : PaddingValue → Bool
  | .num _ => false
  | .quad _ _ _ _ => true

/-- Edge interpretation of a padding value: the external engine expands a bare
number to that value on every edge (its `getSideOffsets` semantics). -/
def PaddingValue.topEdge : PaddingValue → Int
  | .num n => n
  | .quad t _ _ _ => t

/-- Right edge under the engine's scalar-expansion semantics. -/
def PaddingValue.rightEdge : PaddingValue → Int
  | .num n => n
  | .quad _ r _ _ => r

/-- Bottom edge under the engine's scalar-expansion semantics. -/
def PaddingValue.bottomEdge : PaddingValue → Int
  | .num n => n
  | .quad _ _ b _ => b

/-- Left edge under the engine's scalar-expansion semantics. -/
def PaddingValue.leftEdge : PaddingValue → Int
  | .num n => n
  | .quad _ _ _ l => l

/-- popperContent.ts:154-157 — `const collisionPadding = typeof ... === 'number'
? collisionPaddingProp.value : { top: 0, right: 0, bottom: 0, left: 0,
...collisionPaddingProp.value }`. The spread keeps supplied edges and fills the
missing ones with 0; a bare number is kept as a bare number. -/
def collisionPadding : PaddingProp → PaddingValue
  | .num n => .num n
  | .record t r b l => .quad (t.getD 0) (r.getD 0) (b.getD 0) (l.getD 0)

/-- The `collisionBoundary` prop: a single (possibly null) boundary element or
a list of possibly-null boundary elements. -/
inductive BoundaryProp where
  | single (b : Option Elem)
  | list (bs : List (Option Elem))
deriving DecidableEq, Repr

/-- popperContent.ts:159 — `Array.isArray(collisionBoundary.value)
? collisionBoundary.value : [collisionBoundary.value]`. -/
def boundary : BoundaryProp → List (Option Elem)
  | .list bs => bs
  | .single b => [b]

/-- popperContent.ts:160 — `boundary.length > 0` (null entries count). -/
def hasExplicitBoundaries (cb : BoundaryProp) : Bool :=
  (boundary cb).length > 0

/-- The shared overflow-detection configuration (popperContent.ts:162-167). -/
structure DetectOverflowOptions where
  padding : PaddingValue
  boundary : List Elem
  altBoundary : Bool
deriving DecidableEq, Repr

/-- popperContent.ts:162-167 — `{ padding: collisionPadding, boundary:
boundary.filter(isNotNull), altBoundary: hasExplicitBoundaries }`. -/
def detectOverflowOptions (pad : PaddingProp) (cb : BoundaryProp) : DetectOverflowOptions :=
  { padding := collisionPadding pad,
    boundary := (boundary cb).filterMap id,
    altBoundary := hasExplicitBoundaries cb }

/-- The declarative props of PopperContent with their declared defaults
(popperContent.ts:54-121). -/
structure Props where
  side : Side := .bottom
  sideOffset : Int := 0
  align : Align := .center
  alignOffset : Int := 0
  arrowPadding : Int := 0
  avoidCollisions : Bool := true
  collisionBoundary : BoundaryProp := .list []
  collisionPadding : PaddingProp := .num 0
  sticky : Sticky := .part
  hideWhenDetached : Bool := false
  updatePositionStrategy : UpdateStrategy := .optimized
deriving DecidableEq, Repr

/-- The limiter slot of the shift middleware: `limitShift()` when present. -/
inductive Limiter where
  | limitShift
deriving DecidableEq, Repr

/-- Configuration of the shift middleware step (popperContent.ts:176-181). -/
structure ShiftConfig where
  mainAxis : Bool
  crossAxis : Bool
  limiter : Option Limiter
  detect : DetectOverflowOptions
deriving DecidableEq, Repr

/-- Strategy option of the hide middleware; `referenceHidden` models the
string `'referenceHidden'` passed at popperContent.ts:205. -/
inductive HideStrategy where
  | referenceHidden
  | escaped
deriving DecidableEq, Repr

/-- One configured middleware step handed to the positioning engine. The size
step's `apply` callback (popperContent.ts:188-195) writes the four
`--oku-popper-*` CSS custom properties; only its detection options are data. -/
inductive Middleware where
  | offset (mainAxis alignmentAxis : Int)
  | shift (cfg : ShiftConfig)
  | flip (detect : DetectOverflowOptions)
  | size (detect : DetectOverflowOptions)
  | arrow (element : Elem) (padding : Int)
  | transformOrigin (arrowWidth arrowHeight : Int)
  | hide (strategy : HideStrategy) (detect : DetectOverflowOptions)
deriving DecidableEq, Repr

/-- The constructor kind of a middleware step. -/
inductive MWKind where
  | offset
  | shift
  | flip
  | size
  | arrow
  | transformOrigin
  | hide
deriving DecidableEq, Repr

/-- Kind projection of a middleware step. -/
def Middleware.kind : Middleware → MWKind
  | .offset _ _ => .offset
  | .shift _ => .shift
  | .flip _ => .flip
  | .size _ => .size
  | .arrow _ _ => .arrow
  | .transformOrigin _ _ => .transformOrigin
  | .hide _ _ => .hide

/-- The `_middleware` computed (popperContent.ts:169-208). It reads the
reactive props (`sideOffset`, `alignOffset`, `avoidCollisions`, `sticky`,
`arrowPadding`, `hideWhenDetached`) at recomputation time, but closes over the
plain `const detectOverflowOptions` captured once during `setup` — passed here
as `dop`. `arrowEl` is the registered arrow element (line 199 guard),
`arrowWidth`/`arrowHeight` the measured arrow size (0 when absent). Every
entry is pushed as a definite value and the list ends with
`.filter(isDefined)` (line 207), modelled by `filterMap id` over `some`s. -/
def middlewareAt (dop : DetectOverflowOptions) (p : Props) (arrowEl : Option Elem)
    (arrowWidth arrowHeight : Int) : List Middleware :=
  ([some (Middleware.offset (p.sideOffset + arrowHeight) p.alignOffset)]
    ++ (if p.avoidCollisions then
          [some (Middleware.shift
            { mainAxis := true,
              crossAxis := false,
              limiter := if p.sticky = Sticky.part then some Limiter.limitShift else none,
              detect := dop }),
           some (Middleware.flip dop)]
        else [])
    ++ [some (Middleware.size dop)]
    ++ (match arrowEl with
        | some e => [some (Middleware.arrow e p.arrowPadding)]
        | none => [])
    ++ [some (Middleware.transformOrigin arrowWidth arrowHeight)]
    ++ (if p.hideWhenDetached then
          [some (Middleware.hide HideStrategy.referenceHidden dop)]
        else [])
  ).filterMap id

/-- The middleware list when the detection options are freshly derived from
the same props (the situation on the initial pass). -/
def middleware (p : Props) (arrowEl : Option Elem) (arrowWidth arrowHeight : Int) :
    List Middleware :=
  middlewareAt (detectOverflowOptions p.collisionPadding p.collisionBoundary) p arrowEl
    arrowWidth arrowHeight

/-- Arrow middleware data as reported by the engine (`x`/`y` optional,
`centerOffset` always present when the data object exists). -/
structure ArrowData where
  x : Option Int
  y : Option Int
  centerOffset : Int
deriving DecidableEq, Repr

/-- Transform-origin middleware data: the two parts of the origin string. -/
structure TransformOriginData where
  x : String
  y : String
deriving DecidableEq, Repr

/-- Hide middleware data. -/
structure HideData where
  referenceHidden : Bool
deriving DecidableEq, Repr

/-- The engine's `middlewareData` object: each field is present only when the
corresponding middleware ran. -/
structure MiddlewareData where
  arrow : Option ArrowData := none
  transformOrigin : Option TransformOriginData := none
  hide : Option HideData := none
deriving DecidableEq, Repr

/-- popperContent.ts:247 — `` `${middlewareData.value.arrow?.x || 0}px` ``;
`|| 0` maps both `undefined` and `0` to `0`. -/
def arrowX (md : MiddlewareData) : String :=
  toString ((md.arrow.bind ArrowData.x).getD 0) ++ "px"

/-- popperContent.ts:248 — `` `${middlewareData.value.arrow?.y || 0}px` ``. -/
def arrowY (md : MiddlewareData) : String :=
  toString ((md.arrow.bind ArrowData.y).getD 0) ++ "px"

/-- popperContent.ts:249 — `middlewareData.value.arrow?.centerOffset !== 0`.
The optional chain yields `undefined` when no arrow data is present, modelled
as `none`, and the strict inequality against `0` is then true. -/
def cannotCenterArrow (md : MiddlewareData) : Bool :=
  decide (md.arrow.map ArrowData.centerOffset ≠ some 0)

/-- The styles reported by the engine's `floatingStyles` computed. -/
structure FloatingStyles where
  position : String
  left : String
  top : String
  transform : String
deriving DecidableEq, Repr

/-- The inline style object of the outer wrapper div. -/
structure OuterStyle where
  position : String
  left : String
  top : String
  transform : String
  minWidth : String
  zIndex : Option String
  transformOriginVar : String
deriving DecidableEq, Repr

/-- popperContent.ts:286-289 — `[md.transformOrigin?.x, md.transformOrigin?.y]
.join(' ')`; JS `join` renders `undefined` entries as empty strings. -/
def joinTransformOrigin (md : MiddlewareData) : String :=
  (match md.transformOrigin with
   | some t => t.x
   | none => "")
    ++ " "
    ++ (match md.transformOrigin with
        | some t => t.y
        | none => "")

/-- The outer wrapper's style (popperContent.ts:279-290): engine position,
`left`/`top` with `px` appended, the transform gated on `isPositioned` with the
fixed off-screen fallback, `max-content` min-width, the copied z-index, and
the transform-origin custom property. -/
def outerStyle (fs : FloatingStyles) (isPositioned : Bool)
    (contentZIndex : Option String) (md : MiddlewareData) : OuterStyle :=
  { position := fs.position,
    left := fs.left ++ "px",
    top := fs.top ++ "px",
    transform := if isPositioned then fs.transform else "translate(0, -200%)",
    minWidth := "max-content",
    zIndex := contentZIndex,
    transformOriginVar := joinTransformOrigin md }

/-- Modelled from the spec: `useCallbackRef` (package `@oku-ui/use-composable`,
part of this repository but not under src/) wraps the `onPlaced` callback in a
stable reference, so the watcher at popperContent.ts:242-245 re-runs only when
`isPositioned` changes. A watcher runs its handler once per change of the
watched source; `trace` is the successive values of `isPositioned` at each
reactive update (geometry-only updates repeat the previous value), with the
value before the trace as the first argument. The handler (lines 243-244)
invokes the callback iff the current value is true. Counts the invocations. -/
def onPlacedCalls : Bool → List Bool → Nat
  | _, [] => 0
  | prev, b :: rest =>
      (if b ≠ prev then (if b then 1 else 0) else 0) + onPlacedCalls b rest

/-- Number of false-to-true transitions of the positioned flag along a trace. -/
def risingEdges : Bool → List Bool → Nat
  | _, [] => 0
  | prev, b :: rest =>
      (if prev = false ∧ b = true then 1 else 0) + risingEdges b rest

/-- The two ref slots declared in `setup`: `newRef` from `useRef` (line 144)
and the `content` ref (line 143). -/
inductive RefTarget where
  | newRefTarget
  | contentTarget
deriving DecidableEq, Repr

/-- Ref bindings carried by the vnodes the render function emits
(popperContent.ts:274-316): the outer div carries `ref: newRef` (line 277);
the inner div (lines 295-312) carries no ref. No emitted vnode binds the
`content` ref. -/
def renderRefBindings : List (Option RefTarget) :=
  [some RefTarget.newRefTarget, none]

/-- Lifecycle state for the z-index copy: the two element refs and the
`contentZIndex` ref (line 257, initially undefined). -/
structure LifeState where
  newRefEl : Option Elem
  contentEl : Option Elem
  contentZIndex : Option String
deriving DecidableEq, Repr

/-- All refs start unset. -/
def initialLifeState : LifeState :=
  { newRefEl := none, contentEl := none, contentZIndex := none }

/-- Deliver a committed element to a vnode's ref binding. -/
def assignRef (e : Elem) (b : Option RefTarget) (s : LifeState) : LifeState :=
  match b with
  | some RefTarget.newRefTarget => { s with newRefEl := some e }
  | some RefTarget.contentTarget => { s with contentEl := some e }
  | none => s

/-- The watcher at popperContent.ts:258-261: runs when `content` changes; if
the new value is non-null, copies that element's computed z-index (read from
the environment `zEnv`) into `contentZIndex`. -/
def runContentWatch (zEnv : Elem → String) (old next : LifeState) : LifeState :=
  if next.contentEl ≠ old.contentEl then
    match next.contentEl with
    | some e => { next with contentZIndex := some (zEnv e) }
    | none => next
  else next

/-- Observable lifecycle events: a render commit handing the two rendered
elements to the vnode ref bindings, or an engine geometry update (which
touches no ref). -/
inductive LifeEvent where
  | mount (outerEl innerEl : Elem)
  | engineUpdate
deriving DecidableEq, Repr

/-- One lifecycle step: a mount delivers the outer and inner elements to the
respective positions of `renderRefBindings`, then the `content` watcher runs
against the previous state. -/
def lifeStep (zEnv : Elem → String) (s : LifeState) (ev : LifeEvent) : LifeState :=
  match ev with
  | .mount outerEl innerEl =>
      let s1 := assignRef outerEl (renderRefBindings.getD 0 none) s
      let s2 := assignRef innerEl (renderRefBindings.getD 1 none) s1
      runContentWatch zEnv s s2
  | .engineUpdate => s

/-- Run the component's lifecycle from the initial state. -/
def lifeRun (zEnv : Elem → String) (evs : List LifeEvent) : LifeState :=
  evs.foldl (lifeStep zEnv) initialLifeState

/-! Theorems. -/

/-- Helper: the kind sequence of the middleware list, for any captured
detection options, current props, arrow registration and measured size. -/
theorem middlewareAt_map_kind (dop : DetectOverflowOptions) (p : Props)
    (arrowEl : Option Elem) (aw ah : Int) :
    (middlewareAt dop p arrowEl aw ah).map Middleware.kind =
      [MWKind.offset]
        ++ (if p.avoidCollisions then [MWKind.shift, MWKind.flip] else [])
        ++ [MWKind.size]
        ++ (if arrowEl.isSome then [MWKind.arrow] else [])
        ++ [MWKind.transformOrigin]
        ++ (if p.hideWhenDetached then [MWKind.hide] else []) := by
  cases hA : p.avoidCollisions <;> cases hH : p.hideWhenDetached <;> cases arrowEl <;>
    simp [middlewareAt, Middleware.kind, hA, hH]

/-- Claim C1: for every prop configuration, the middleware list handed to the
positioning engine is in the fixed order: offset first; then, only if
`avoidCollisions` is true, shift followed by flip; then size; then arrow, only
if an arrow element is registered; then transform-origin; then hide, only if
`hideWhenDetached` is true — and no middleware appears in any other position
(the kind sequence is exactly this concatenation). -/
theorem middleware_order (dop : DetectOverflowOptions) (p : Props)
    (arrowEl : Option Elem) (aw ah : Int) :
    (middlewareAt dop p arrowEl aw ah).map Middleware.kind =
      [MWKind.offset]
        ++ (if p.avoidCollisions then [MWKind.shift, MWKind.flip] else [])
        ++ [MWKind.size]
        ++ (if arrowEl.isSome then [MWKind.arrow] else [])
        ++ [MWKind.transformOrigin]
        ++ (if p.hideWhenDetached then [MWKind.hide] else []) :=
  middlewareAt_map_kind dop p arrowEl aw ah

/-- Claim C2: with `avoidCollisions` false the sequence has no shift and no
flip step regardless of `sticky`; with `avoidCollisions` true it contains a
shift step with `mainAxis` true and `crossAxis` false whose limiter is the
partial-shift limiter exactly when `sticky` is partial mode, immediately
followed by a flip step. -/
theorem shift_flip_iff_avoidCollisions (dop : DetectOverflowOptions) (p : Props)
    (arrowEl : Option Elem) (aw ah : Int) :
    (p.avoidCollisions = false →
      ∀ m ∈ middlewareAt dop p arrowEl aw ah,
        m.kind ≠ MWKind.shift ∧ m.kind ≠ MWKind.flip) ∧
    (p.avoidCollisions = true →
      ∃ pre post limiter,
        middlewareAt dop p arrowEl aw ah =
          pre
            ++ [Middleware.shift
                  { mainAxis := true, crossAxis := false, limiter := limiter, detect := dop },
                Middleware.flip dop]
            ++ post ∧
        (limiter = some Limiter.limitShift ↔ p.sticky = Sticky.part)) := by
  constructor
  · intro hA m hm
    have hk := List.mem_map_of_mem Middleware.kind hm
    rw [middlewareAt_map_kind, hA] at hk
    cases hH : p.hideWhenDetached <;> rw [hH] at hk <;>
      cases arrowEl <;>
        refine ⟨fun h => ?_, fun h => ?_⟩ <;> rw [h] at hk <;> simp at hk
  · intro hA
    refine ⟨[Middleware.offset (p.sideOffset + ah) p.alignOffset],
      [Middleware.size dop]
        ++ (match arrowEl with
            | some e => [Middleware.arrow e p.arrowPadding]
            | none => [])
        ++ [Middleware.transformOrigin aw ah]
        ++ (if p.hideWhenDetached then
              [Middleware.hide HideStrategy.referenceHidden dop]
            else []),
      if p.sticky = Sticky.part then some Limiter.limitShift else none, ?_, ?_⟩
    · cases hH : p.hideWhenDetached <;> cases arrowEl <;> simp [middlewareAt, hA, hH]
    · cases hS : p.sticky <;> simp [hS]

/-- Witness for C2 at concrete inputs: with `avoidCollisions` false the offset
step is neither shift nor flip, and with the default props (collision
avoidance on, sticky partial) the shift/flip pair is present. -/
theorem shift_flip_iff_avoidCollisions_witness :
    ((Middleware.offset 0 0).kind ≠ MWKind.shift ∧
      (Middleware.offset 0 0).kind ≠ MWKind.flip) ∧
    (∃ pre post limiter,
      middlewareAt (detectOverflowOptions (PaddingProp.num 0) (BoundaryProp.list []))
          {} none 0 0 =
        pre
          ++ [Middleware.shift
                { mainAxis := true, crossAxis := false, limiter := limiter,
                  detect := detectOverflowOptions (PaddingProp.num 0) (BoundaryProp.list []) },
              Middleware.flip
                (detectOverflowOptions (PaddingProp.num 0) (BoundaryProp.list []))]
          ++ post ∧
      (limiter = some Limiter.limitShift ↔ ({} : Props).sticky = Sticky.part)) := by
  constructor
  · exact (shift_flip_iff_avoidCollisions
      (detectOverflowOptions (PaddingProp.num 0) (BoundaryProp.list []))
      { avoidCollisions := false } none 0 0).1 rfl (Middleware.offset 0 0) (by decide)
  · exact (shift_flip_iff_avoidCollisions
      (detectOverflowOptions (PaddingProp.num 0) (BoundaryProp.list []))
      {} none 0 0).2 rfl

/-- Counterexample to claim C3 as stated: a bare-number `collisionPadding` is
kept as a bare number by the normalization at popperContent.ts:154-157; it is
not turned into a four-edge record. -/
theorem collisionPadding_number_not_quad :
    (collisionPadding (PaddingProp.num 5)).isQuad = false ∧
    collisionPadding (PaddingProp.num 5) = PaddingValue.num 5 := by decide

/-- Amended claim C3: a partial record normalizes to a four-edge record whose
unspecified edges are zero; a bare number is passed through unchanged as a
scalar, which the engine itself reads as that number on all four edges. -/
theorem collisionPadding_normalization (pad : PaddingProp) :
    (∀ n, pad = PaddingProp.num n →
      collisionPadding pad = PaddingValue.num n ∧
      (collisionPadding pad).topEdge = n ∧
      (collisionPadding pad).rightEdge = n ∧
      (collisionPadding pad).bottomEdge = n ∧
      (collisionPadding pad).leftEdge = n) ∧
    (∀ t r b l, pad = PaddingProp.record t r b l →
      collisionPadding pad =
        PaddingValue.quad (t.getD 0) (r.getD 0) (b.getD 0) (l.getD 0)) := by
  constructor
  · rintro n rfl
    simp [collisionPadding, PaddingValue.topEdge, PaddingValue.rightEdge,
      PaddingValue.bottomEdge, PaddingValue.leftEdge]
  · rintro t r b l rfl
    simp [collisionPadding]

/-- Witness for the amended C3 at concrete inputs. -/
theorem collisionPadding_normalization_witness :
    (collisionPadding (PaddingProp.num 5) = PaddingValue.num 5 ∧
      (collisionPadding (PaddingProp.num 5)).topEdge = 5 ∧
      (collisionPadding (PaddingProp.num 5)).rightEdge = 5 ∧
      (collisionPadding (PaddingProp.num 5)).bottomEdge = 5 ∧
      (collisionPadding (PaddingProp.num 5)).leftEdge = 5) ∧
    collisionPadding (PaddingProp.record (some 1) none none (some 2)) =
      PaddingValue.quad 1 0 0 2 := by
  constructor
  · exact (collisionPadding_normalization (PaddingProp.num 5)).1 5 rfl
  · exact (collisionPadding_normalization
      (PaddingProp.record (some 1) none none (some 2))).2 (some 1) none none (some 2) rfl

/-- Counterexample to claim C4 as stated: `collisionBoundary = [null]` yields
`altBoundary = true` although no non-null boundary element was supplied (the
flag tests the length of the wrapped list, null entries included). -/
theorem altBoundary_true_with_null_entry :
    (detectOverflowOptions (PaddingProp.num 0) (BoundaryProp.list [none])).altBoundary = true ∧
    (detectOverflowOptions (PaddingProp.num 0) (BoundaryProp.list [none])).boundary = [] := by
  decide

/-- Amended claim C4: `altBoundary` is true exactly when the supplied
`collisionBoundary`, after wrapping a bare value into a one-element list, is
non-empty — null entries count as supplied; in particular `[]` yields false and
`[elementA]` yields true, and the boundary list passed to the engine contains
only the non-null elements. -/
theorem altBoundary_iff_nonempty_boundary (pad : PaddingProp) (cb : BoundaryProp) (a : Elem) :
    ((detectOverflowOptions pad cb).altBoundary = true ↔ (boundary cb).length > 0) ∧
    (detectOverflowOptions pad (BoundaryProp.list [])).altBoundary = false ∧
    (detectOverflowOptions pad (BoundaryProp.list [some a])).altBoundary = true ∧
    (∀ e, e ∈ (detectOverflowOptions pad cb).boundary → some e ∈ boundary cb) := by
  refine ⟨?_, ?_, ?_, ?_⟩
  · simp [detectOverflowOptions, hasExplicitBoundaries]
  · simp [detectOverflowOptions, hasExplicitBoundaries, boundary]
  · simp [detectOverflowOptions, hasExplicitBoundaries, boundary]
  · intro e he
    simpa [detectOverflowOptions, List.mem_filterMap] using he

/-- Witness for the amended C4 at concrete inputs. -/
theorem altBoundary_iff_nonempty_boundary_witness :
    (detectOverflowOptions (PaddingProp.num 0)
        (BoundaryProp.list [some 3, none])).altBoundary = true ∧
    some 3 ∈ boundary (BoundaryProp.list [some 3, none]) := by
  constructor
  · exact ((altBoundary_iff_nonempty_boundary (PaddingProp.num 0)
      (BoundaryProp.list [some 3, none]) 7).1).mpr (by decide)
  · exact (altBoundary_iff_nonempty_boundary (PaddingProp.num 0)
      (BoundaryProp.list [some 3, none]) 7).2.2.2 3 (by decide)

/-- Claim C5, evaluated at the failing input: the detection options are a
plain `const` captured during `setup` (popperContent.ts:154-167), so after the
`collisionPadding` prop changes from its default 0 to 10, the recomputed
middleware still carries padding 0 in its shift/flip/size steps, while the
detection options derived from the current props would carry padding 10. -/
theorem stale_detectOverflowOptions_after_prop_change :
    middlewareAt
        (detectOverflowOptions ({} : Props).collisionPadding ({} : Props).collisionBoundary)
        { collisionPadding := PaddingProp.num 10 } none 0 0 =
      [Middleware.offset 0 0,
       Middleware.shift
         { mainAxis := true, crossAxis := false, limiter := some Limiter.limitShift,
           detect := { padding := PaddingValue.num 0, boundary := [], altBoundary := false } },
       Middleware.flip { padding := PaddingValue.num 0, boundary := [], altBoundary := false },
       Middleware.size { padding := PaddingValue.num 0, boundary := [], altBoundary := false },
       Middleware.transformOrigin 0 0] ∧
    (detectOverflowOptions
        ({ collisionPadding := PaddingProp.num 10 } : Props).collisionPadding
        ({ collisionPadding := PaddingProp.num 10 } : Props).collisionBoundary).padding =
      PaddingValue.num 10 := by decide

/-- Claim C6: the `onPlaced` watcher fires exactly once per false-to-true
transition of the positioned flag along any trace of reactive updates, and in
particular never on geometry-only updates that leave the flag true. -/
theorem onPlaced_once_per_rising_edge (prev : Bool) (trace : List Bool) :
    onPlacedCalls prev trace = risingEdges prev trace := by
  induction trace generalizing prev with
  | nil => rfl
  | cons b rest ih => cases prev <;> cases b <;> simp [onPlacedCalls, risingEdges, ih]

/-- Claim C7: while the positioned flag is false the outer container's
transform is the fixed off-screen value, whatever the engine computed; once
the flag is true it is exactly the engine's reported transform. -/
theorem transform_offscreen_until_positioned (fs : FloatingStyles)
    (cz : Option String) (md : MiddlewareData) :
    (outerStyle fs false cz md).transform = "translate(0, -200%)" ∧
    (outerStyle fs true cz md).transform = fs.transform := by
  constructor <;> rfl

/-- Counterexample to claim C8 as stated: when no arrow middleware data is
present, `middlewareData.arrow?.centerOffset !== 0` compares `undefined` with
`0` and the published flag is true, not false. -/
theorem cannotCenterArrow_true_without_data :
    cannotCenterArrow {} = true ∧ ({} : MiddlewareData).arrow = none := by decide

/-- Amended claim C8: the flag is true iff the engine's arrow data is absent
or reports a nonzero center offset — equivalently, it is false exactly when
arrow data is present with center offset zero. -/
theorem cannotCenterArrow_iff (md : MiddlewareData) :
    cannotCenterArrow md = true ↔
      (md.arrow = none ∨ ∃ a, md.arrow = some a ∧ a.centerOffset ≠ 0) := by
  cases h : md.arrow with
  | none => simp [cannotCenterArrow, h]
  | some a => simp [cannotCenterArrow, h]

/-- Helper: one lifecycle step never writes the `content` ref (no emitted
vnode binds it) and hence never sets `contentZIndex`. -/
theorem lifeStep_preserves_content (zEnv : Elem → String) (s : LifeState) (ev : LifeEvent)
    (h1 : s.contentEl = none) (h2 : s.contentZIndex = none) :
    (lifeStep zEnv s ev).contentEl = none ∧ (lifeStep zEnv s ev).contentZIndex = none := by
  cases ev with
  | engineUpdate => exact ⟨h1, h2⟩
  | mount o i =>
      simp [lifeStep, assignRef, renderRefBindings, runContentWatch, List.getD, h1, h2]

/-- Helper: along every lifecycle trace the `content` ref stays unset and the
copied z-index stays undefined. -/
theorem lifeRun_content_unset (zEnv : Elem → String) (evs : List LifeEvent) :
    (lifeRun zEnv evs).contentEl = none ∧ (lifeRun zEnv evs).contentZIndex = none := by
  suffices h : ∀ s : LifeState, s.contentEl = none → s.contentZIndex = none →
      (evs.foldl (lifeStep zEnv) s).contentEl = none ∧
      (evs.foldl (lifeStep zEnv) s).contentZIndex = none by
    simpa [lifeRun] using h initialLifeState rfl rfl
  induction evs with
  | nil => intro s h1 h2; exact ⟨h1, h2⟩
  | cons ev rest ih =>
      intro s h1 h2
      have hstep := lifeStep_preserves_content zEnv s ev h1 h2
      exact ih (lifeStep zEnv s ev) hstep.1 hstep.2

/-- Claim C9, evaluated on the code: the `content` ref declared at
popperContent.ts:143 is bound to no vnode the render function emits, so the
watcher at lines 258-261 never runs and the outer container's z-index stays
undefined on every lifecycle trace — it never becomes the computed z-index of
the rendered content element (e.g. it is still `none` after a mount in an
environment where every element's computed z-index is the string 10). -/
theorem contentZIndex_never_copied :
    (∀ (zEnv : Elem → String) (evs : List LifeEvent),
      (lifeRun zEnv evs).contentZIndex = none) ∧
    (lifeRun (fun _ => "10") [LifeEvent.mount 1 2]).contentZIndex = none := by
  exact ⟨fun zEnv evs => (lifeRun_content_unset zEnv evs).2,
    (lifeRun_content_unset _ _).2⟩

/-- Claim C10: when no arrow element is registered the middleware sequence
contains no arrow step, and with the engine consequently reporting no arrow
middleware data the published arrow x/y offsets are the zero default. -/
theorem no_arrow_step_and_zero_offsets (dop : DetectOverflowOptions) (p : Props)
    (aw ah : Int) (md : MiddlewareData) :
    (∀ m ∈ middlewareAt dop p none aw ah, m.kind ≠ MWKind.arrow) ∧
    (md.arrow = none → arrowX md = "0px" ∧ arrowY md = "0px") := by
  constructor
  · intro m hm hEq
    have hk := List.mem_map_of_mem Middleware.kind hm
    rw [middlewareAt_map_kind, hEq] at hk
    cases hA : p.avoidCollisions <;> rw [hA] at hk <;>
      cases hH : p.hideWhenDetached <;> rw [hH] at hk <;> simp at hk
  · intro h
    constructor <;> simp [arrowX, arrowY, h] <;> rfl

/-- Witness for C10 at concrete inputs. -/
theorem no_arrow_step_and_zero_offsets_witness :
    (Middleware.offset 0 0).kind ≠ MWKind.arrow ∧
    arrowX {} = "0px" ∧ arrowY {} = "0px" := by
  constructor
  · exact (no_arrow_step_and_zero_offsets
      (detectOverflowOptions (PaddingProp.num 0) (BoundaryProp.list [])) {} 0 0 {}).1
      (Middleware.offset 0 0) (by decide)
  · exact (no_arrow_step_and_zero_offsets
      (detectOverflowOptions (PaddingProp.num 0) (BoundaryProp.list [])) {} 0 0 {}).2 rfl

end Popper
